import Mathlib

/-!
Shallow embedding of the notebook `src/Dissertation/LT5-LE7 SR Spectral
Indices.ipynb`.  The notebook orchestrates the Google Earth Engine (EE)
raster algebra; the per-pixel semantics of the EE primitives it invokes is
embedded here directly.  An image is a finite association list of named
bands (rasters: per-pixel optional rational values, `none` = masked) plus
string-valued metadata properties, mirroring EE's image model.
-/

/-- A pixel coordinate on the (unbounded) raster grid. -/
abbrev Pixel := ℤ × ℤ

/-- A single raster band: an optional rational value at every pixel;
`none` models an EE masked/missing pixel. -/
abbrev Raster := Pixel → Option ℚ

/-- An EE image: named bands plus string metadata properties. -/
structure EEImage where
  bands : List (String × Raster)
  props : List (String × String)

/-- Band access by name; a missing band reads as an all-masked raster. -/
def getBand (img : EEImage) (name : String) : Raster :=
  match img.bands.lookup name with
  | some r => r
  | none => fun _ => none

/-- Metadata property access (`img.get(key)`). -/
def getProp (img : EEImage) (key : String) : Option String :=
  img.props.lookup key

/-- `img.set({...})`: add/override metadata properties. -/
def eeSet (img : EEImage) (kvs : List (String × String)) : EEImage :=
  { img with props := kvs ++ img.props }

/-- `img.select(oldNames, newNames)`: pick bands by name and rename them,
in the order given by the selection list. -/
def eeSelect (img : EEImage) (sel : List (String × String)) : EEImage :=
  { img with bands := sel.map (fun onb => (onb.2, getBand img onb.1)) }

/-- Apply one raster transformation uniformly to every band of an image
(the shape of EE's per-band pointwise operations). -/
def mapRasters (f : Raster → Raster) (img : EEImage) : EEImage :=
  { img with bands := img.bands.map (fun nr => (nr.1, f nr.2)) }

/-- `img.divide(c)`: divide every band by a constant, pointwise. -/
def eeDivide (img : EEImage) (c : ℚ) : EEImage :=
  mapRasters (fun r p => (r p).map (fun v => v / c)) img

/-- `img.updateMask(m)`: a pixel survives only where the mask raster is
defined and nonzero; everywhere else it becomes masked. -/
def eeUpdateMask (img : EEImage) (m : Raster) : EEImage :=
  mapRasters (fun r p =>
    match m p with
    | some mv => if mv = 0 then none else r p
    | none => none) img

/-- `img.clip(region)`: mask every pixel outside the region. -/
def eeClip (inRegion : Pixel → Bool) (img : EEImage) : EEImage :=
  mapRasters (fun r p => if inRegion p then r p else none) img

/-- The nine offsets of a 3×3 (`ee.Kernel.square(1)`) window, the centre
pixel included. -/
def offsets9 : List Pixel :=
  [(-1, -1), (-1, 0), (-1, 1), (0, -1), (0, 0), (0, 1), (1, -1), (1, 0), (1, 1)]

/-- `reduceNeighborhood(ee.Reducer.anyNonZero(), ee.Kernel.square(1))`:
over each 3×3 window, reduce the unmasked input values to 1 when any of
them is nonzero and 0 otherwise; a window with no unmasked value reduces
to masked. -/
def reduceNeighborhoodAnyNonZero (r : Raster) : Raster := fun p =>
  match offsets9.filterMap (fun d => r (p.1 + d.1, p.2 + d.2)) with
  | [] => none
  | v :: vs => some (if (v :: vs).any (fun x => decide (x ≠ 0)) then 1 else 0)

/-- `qa.bitwiseAnd(m)` on a band holding a nonnegative integral value
(the packed QA bitfield): bitwise AND of the value with the constant. -/
def qBitAnd (x : ℚ) (m : ℕ) : ℚ :=
  ((x.num.toNat &&& m : ℕ) : ℚ)

/-- The selection/renaming list of `cloud_mask`'s trailing `.select`:
the six raw reflectance bands renamed to canonical names, and the QA
band kept under its own name. -/
def sel7 : List (String × String) :=
  [("B1", "blue"), ("B2", "green"), ("B3", "red"), ("B4", "NIR"),
   ("B5", "SWIR1"), ("B7", "SWIR2"), ("pixel_qa", "pixel_qa")]

/-- The bit masks of `cloud_mask`: cloud shadow (bit 3), cloud (bit 5),
water (bit 2). -/
def cloud_shadow_bit_mask : ℕ := 2 ^ 3

/-- Cloud bit mask (bit 5) of `cloud_mask`. -/
def clouds_bit_mask : ℕ := 2 ^ 5

/-- Water bit mask (bit 2) of `cloud_mask`. -/
def water_bit_mask : ℕ := 2 ^ 2

/-- The provisional clear-pixel indicator of `cloud_mask`:
`qa.bitwiseAnd(shadow).eq(0).And(qa.bitwiseAnd(cloud).eq(0)).And(qa.bitwiseAnd(water).eq(0))`
— 1 exactly when all three bits are unset. -/
def clearPixel (q : ℚ) : ℚ :=
  if qBitAnd q cloud_shadow_bit_mask = 0 ∧ qBitAnd q clouds_bit_mask = 0 ∧
      qBitAnd q water_bit_mask = 0 then 1 else 0

/-- The mask raster `cloud_mask` computes: the clear-pixel indicator of
the `pixel_qa` band, reduced over the 3×3 neighbourhood with the
`anyNonZero` reducer. -/
def cloudMaskRaster (img : EEImage) : Raster :=
  reduceNeighborhoodAnyNonZero
    (fun p => (getBand img "pixel_qa" p).map clearPixel)

/-- The notebook's `cloud_mask(img)`: compute the neighbourhood-reduced
clear mask from the `pixel_qa` band, use it as the image mask, divide
every band by 10000, select/rename the bands per `sel7`, and tag the
result with the sensing date and its first four characters as the `year`
label. -/
def cloud_mask (img : EEImage) : EEImage :=
  eeSet (eeSelect (eeDivide (eeUpdateMask img (cloudMaskRaster img)) 10000) sel7)
    [("date", (getProp img "SENSING_TIME").getD ""),
     ("year", ((getProp img "SENSING_TIME").getD "").take 4)]

/-- Modelled from the spec: `ee.Image.normalizedDifference` runs inside
the remote Earth Engine service and its implementation is not part of
this repository.  Per the spec's Index Calculator contract (§4.4), it
computes `(first − second) / (first + second)` per pixel and produces a
missing value, rather than raising, where the denominator is zero. -/
def normalizedDifference (img : EEImage) (b1 b2 : String) : EEImage :=
  { bands := [("nd", fun p =>
      match getBand img b1 p, getBand img b2 p with
      | some a, some b => if a + b = 0 then none else some ((a - b) / (a + b))
      | _, _ => none)],
    props := img.props }

/-- The notebook's `ndvi(img)`: normalized difference of the `NIR` and
`red` bands, tagged with the image's year and the variable name. -/
def ndvi (img : EEImage) : EEImage :=
  eeSet (normalizedDifference img "NIR" "red")
    [("year", (getProp img "year").getD ""), ("variable", "NDVI")]

/-- An EE image collection: an ordered multiset of images. -/
abbrev ImageCollection := List EEImage

/-- `collection.filterMetadata(key, 'equals', v)`. -/
def filterMetadataEquals (c : ImageCollection) (key v : String) : ImageCollection :=
  c.filter (fun img => img.props.lookup key == some v)

/-- Modelled from the spec: the per-pixel maximum reducer executed by the
remote EE service (`ImageCollection.max`).  Per the spec's Annual
Compositor contract (§4.3), it is the maximum of the unmasked
contributing values, and is missing when there are none. -/
def maxList : List ℚ → Option ℚ
  | [] => none
  | a :: as =>
    match maxList as with
    | none => some a
    | some m => some (max a m)

/-- Modelled from the spec: the per-pixel median reducer executed by the
remote EE service (`ImageCollection.median`).  Per the spec's Annual
Compositor contract (§4.3), it ignores masked contributions, returns the
middle-ranked value for an odd count, the average of the two
middle-ranked values for an even count, and is missing when there are no
contributions. -/
def medianList (l : List ℚ) : Option ℚ :=
  let s := List.insertionSort (· ≤ ·) l
  if s.length % 2 = 1 then s[s.length / 2]?
  else
    match s[s.length / 2 - 1]?, s[s.length / 2]? with
    | some a, some b => some ((a + b) / 2)
    | _, _ => none

/-- The band names a collection-level reduction produces (those of the
collection's first image; an empty collection reduces to a band-less
image, as in EE). -/
def collectionBandNames (c : ImageCollection) : List String :=
  (c.head?.map (fun img => img.bands.map Prod.fst)).getD []

/-- Reduce an image collection band-by-band and pixel-by-pixel: each
output band gathers, at each pixel, the unmasked values of that band over
the collection and feeds them to the reducer. -/
def collectionReduce (f : List ℚ → Option ℚ) (c : ImageCollection) : EEImage :=
  { bands := (collectionBandNames c).map
      (fun n => (n, fun p => f (c.filterMap (fun img => getBand img n p)))),
    props := [] }

/-- `collection.median()`. -/
def eeMedian (c : ImageCollection) : EEImage := collectionReduce medianList c

/-- `collection.max()`. -/
def eeMax (c : ImageCollection) : EEImage := collectionReduce maxList c

/-- The notebook's `annual_composite_median(collection, year)`: median of
the scenes whose `year` label equals `year`, tagged with the year. -/
def annual_composite_median (collection : ImageCollection) (year : String) : EEImage :=
  eeSet (eeMedian (filterMetadataEquals collection "year" year)) [("year", year)]

/-- The notebook's `annual_composite_maximum_ndvi(collection, year)`:
per-scene NDVI of the scenes whose `year` label equals `year`, reduced by
the per-pixel maximum and tagged with the year. -/
def annual_composite_maximum_ndvi (collection : ImageCollection) (year : String) : EEImage :=
  eeSet (eeMax ((filterMetadataEquals collection "year" year).map ndvi)) [("year", year)]

/-- A raw archive scene: its image together with the catalogue metadata
the collection filters consult (calendar year and day-of-year of the
sensing date, land cloud-cover percentage, and whether its footprint
intersects the study region). -/
structure RawScene where
  img : EEImage
  year : ℕ
  doy : ℕ
  cloudCoverLand : ℚ
  intersectsRegion : Bool

/-- Calendar-date order (year, day-of-year), non-strict. -/
def dateLE (y1 d1 y2 d2 : ℕ) : Bool :=
  y1 < y2 || (y1 = y2 && d1 ≤ d2)

/-- Calendar-date order (year, day-of-year), strict. -/
def dateLT (y1 d1 y2 d2 : ℕ) : Bool :=
  y1 < y2 || (y1 = y2 && d1 < d2)

/-- The selection list of the post-preprocessing band selection: the six
canonical reflectance bands, names unchanged. -/
def sel6 : List (String × String) :=
  [("blue", "blue"), ("green", "green"), ("red", "red"), ("NIR", "NIR"),
   ("SWIR1", "SWIR1"), ("SWIR2", "SWIR2")]

/-- One platform's branch of the notebook's collection assembly:
`filterDate('1995-01-01', '2015-12-31')` (start inclusive, end exclusive,
with 2015-12-31 being day 365 of 2015), `ee.Filter.dayOfYear(121, 273)`
(inclusive), `filterMetadata('CLOUD_COVER_LAND', 'less_than', 80)`,
`filterBounds(region)`, then `map(cloud_mask)` and the band selection. -/
def platformCollection (archive : List RawScene) : ImageCollection :=
  (((((archive.filter (fun s =>
      dateLE 1995 1 s.year s.doy && dateLT s.year s.doy 2015 365)).filter
    (fun s => 121 ≤ s.doy && s.doy ≤ 273)).filter
    (fun s => decide (s.cloudCoverLand < 80))).filter
    (fun s => s.intersectsRegion)).map
    (fun s => cloud_mask s.img)).map
    (fun img => eeSelect img sel6)

/-- The notebook's `lt5_le7_collection`: the two per-platform collections
(identical filter logic over the two archives) merged by concatenation. -/
def lt5_le7_collection (lt5 le7 : List RawScene) : ImageCollection :=
  platformCollection lt5 ++ platformCollection le7

/-- The notebook's `water` mask: `ee.Image(1).where(max_extent, 0)` —
0 wherever the global-surface-water `max_extent` layer is unmasked and
nonzero (permanent water), 1 everywhere else. -/
def waterOf (gsw : Raster) : Raster := fun p =>
  match gsw p with
  | some v => if v = 0 then some 1 else some 0
  | none => some 1

/-- The notebook's `combined_dates` year-label list. -/
def combined_dates : List String :=
  ["1995", "1996", "1997", "1998", "1999", "2000", "2001", "2002", "2003",
   "2004", "2005", "2006", "2007", "2008", "2009", "2010", "2011", "2012",
   "2013", "2014", "2015"]

/-- One submitted export job (`ee.batch.Export.image.toDrive`), keeping
the fields the notebook sets. -/
structure ExportTask where
  image : EEImage
  description : String
  folder : String
  scale : ℕ
  crs : String

/-- The notebook's export loop (Workspace cell): build the 21 per-year
maximum-NDVI composites clipped to the region, and for the i-th of them
mask out permanent water and ever-cultivated pixels and submit one export
job described `LT5-LE7_SR_Maximum_NDVI_<1995+i>` at scale 30. -/
def exportDriver (coll : ImageCollection) (gsw cdl : Raster)
    (inRegion : Pixel → Bool) : List ExportTask :=
  let composites := combined_dates.map
    (fun year => eeClip inRegion (annual_composite_maximum_ndvi coll year))
  (List.range composites.length).map (fun i =>
    { image := eeUpdateMask (eeUpdateMask (composites.getD i ⟨[], []⟩)
        (waterOf gsw)) cdl,
      description := "LT5-LE7_SR_Maximum_NDVI_" ++ toString (1995 + i),
      folder := "EarthEngine", scale := 30, crs := "EPSG:32617" })

/-! ### Spec-side definitions used to state the claims -/

/-- The spec's survival predicate for one raw archive scene: spatial
intersection with the region, sensing date in the inclusive absolute
range 1995-01-01 .. 2015-12-31, day-of-year in 121..273, and land
cloud-cover percentage strictly below 80. -/
def survivesSpec (s : RawScene) : Bool :=
  s.intersectsRegion && dateLE 1995 1 s.year s.doy && dateLE s.year s.doy 2015 365 &&
    (121 ≤ s.doy && s.doy ≤ 273) && decide (s.cloudCoverLand < 80)

/-- The unmasked values of band `n` at pixel `p` contributed by the
scenes of `coll` whose year label equals `year`. -/
def yearValues (coll : ImageCollection) (year n : String) (p : Pixel) : List ℚ :=
  (filterMetadataEquals coll "year" year).filterMap (fun img => getBand img n p)

/-- The unmasked per-scene NDVI values at pixel `p` of the scenes of
`coll` whose year label equals `year` (the index computed per scene). -/
def ndviValues (coll : ImageCollection) (year : String) (p : Pixel) : List ℚ :=
  (filterMetadataEquals coll "year" year).filterMap
    (fun img => getBand (ndvi img) "nd" p)

/-! ### Helper lemmas -/

theorem lookup_map_snd {α β : Type} (l : List (String × α)) (f : α → β) (k : String) :
    (l.map (fun x => (x.1, f x.2))).lookup k = (l.lookup k).map f := by
  induction l with
  | nil => rfl
  | cons a t ih => by_cases h : k == a.1 <;> simp [List.lookup, h, ih]

theorem lookup_map_self {α : Type} (names : List String) (g : String → α) (k : String) :
    (names.map (fun n => (n, g n))).lookup k = if k ∈ names then some (g k) else none := by
  induction names with
  | nil => rfl
  | cons a t ih =>
    by_cases h : k = a
    · subst h; simp [List.lookup]
    · have hb : (k == a) = false := by simpa using h
      simp [List.lookup, hb, ih, h]

theorem getBand_mapRasters (f : Raster → Raster)
    (hf : ∀ p, f (fun _ => none) p = none)
    (img : EEImage) (n : String) (p : Pixel) :
    getBand (mapRasters f img) n p = f (getBand img n) p := by
  unfold getBand mapRasters
  simp only [lookup_map_snd]
  cases h : img.bands.lookup n <;> simp [hf]

theorem getBand_eeDivide (img : EEImage) (c : ℚ) (n : String) (p : Pixel) :
    getBand (eeDivide img c) n p = (getBand img n p).map (fun v => v / c) :=
  getBand_mapRasters _ (fun _ => rfl) img n p

theorem getBand_eeUpdateMask (img : EEImage) (m : Raster) (n : String) (p : Pixel) :
    getBand (eeUpdateMask img m) n p =
      match m p with
      | some mv => if mv = 0 then none else getBand img n p
      | none => none := by
  refine getBand_mapRasters _ (fun q => ?_) img n p
  cases m q <;> simp

theorem getBand_eeClip (inRegion : Pixel → Bool) (img : EEImage) (n : String) (p : Pixel) :
    getBand (eeClip inRegion img) n p = if inRegion p then getBand img n p else none := by
  refine getBand_mapRasters _ (fun q => ?_) img n p
  by_cases h : inRegion q <;> simp [h]

theorem getBand_eeSelect (img : EEImage) (sel : List (String × String)) (k : String)
    (p : Pixel) :
    getBand (eeSelect img sel) k p =
      match (sel.map (fun onb => (onb.2, onb.1))).lookup k with
      | some raw => getBand img raw p
      | none => none := by
  induction sel with
  | nil => rfl
  | cons x t ih =>
    unfold eeSelect getBand at *
    by_cases h : k == x.2
    all_goals simp only [List.map_cons, List.lookup, h]
    all_goals simpa using ih

theorem getBand_eeSet (img : EEImage) (kvs : List (String × String)) (n : String) :
    getBand (eeSet img kvs) n = getBand img n := rfl

theorem getBand_collectionReduce (f : List ℚ → Option ℚ) (c : ImageCollection)
    (n : String) (p : Pixel) (hn : n ∈ collectionBandNames c) :
    getBand (collectionReduce f c) n p =
      f (c.filterMap (fun img => getBand img n p)) := by
  unfold getBand collectionReduce
  rw [lookup_map_self]
  simp only [hn, if_true]
  rfl

theorem maxList_eq_none_iff (l : List ℚ) : maxList l = none ↔ l = [] := by
  cases l with
  | nil => simp [maxList]
  | cons a t => cases h : maxList t <;> simp [maxList, h]

theorem maxList_eq_some_iff (l : List ℚ) (v : ℚ) :
    maxList l = some v ↔ v ∈ l ∧ ∀ w ∈ l, w ≤ v := by
  induction l generalizing v with
  | nil => simp [maxList]
  | cons a t ih =>
    cases h : maxList t with
    | none =>
      have ht : t = [] := (maxList_eq_none_iff t).mp h
      subst ht
      constructor
      · intro hv
        have hav : a = v := by simpa [maxList] using hv
        subst hav
        simp
      · rintro ⟨hmem, -⟩
        have hva : v = a := by simpa using hmem
        subst hva
        simp [maxList]
    | some m =>
      obtain ⟨hmem, hub⟩ := (ih m).mp h
      simp only [maxList, h]
      constructor
      · rintro hv
        have hv : max a m = v := by simpa using hv
        subst hv
        refine ⟨?_, ?_⟩
        · rcases max_choice a m with hc | hc <;> rw [hc]
          · exact List.mem_cons_self a t
          · exact List.mem_cons_of_mem a hmem
        · intro w hw
          rcases List.mem_cons.mp hw with rfl | hw
          · exact le_max_left _ _
          · exact le_trans (hub w hw) (le_max_right _ _)
      · rintro ⟨hvmem, hvub⟩
        have h1 : max a m ≤ v := by
          refine max_le (hvub a (List.mem_cons_self a t)) (hvub m (List.mem_cons_of_mem a hmem))
        have h2 : v ≤ max a m := by
          rcases List.mem_cons.mp hvmem with rfl | hv
          · exact le_max_left _ _
          · exact le_trans (hub v hv) (le_max_right _ _)
        simp [le_antisymm h1 h2]

theorem insertionSort_eq_of_sorted_perm (l s : List ℚ)
    (hperm : s.Perm l) (hsort : s.Sorted (· ≤ ·)) :
    List.insertionSort (· ≤ ·) l = s := by
  refine List.eq_of_perm_of_sorted ?_ ?_ hsort
  · exact (List.perm_insertionSort _ l).trans hperm.symm
  · exact List.sorted_insertionSort _ l

theorem medianList_of_sorted_perm (l s : List ℚ)
    (hperm : s.Perm l) (hsort : s.Sorted (· ≤ ·)) :
    medianList l =
      (if s.length % 2 = 1 then s[s.length / 2]?
       else
        match s[s.length / 2 - 1]?, s[s.length / 2]? with
        | some a, some b => some ((a + b) / 2)
        | _, _ => none) := by
  unfold medianList
  rw [insertionSort_eq_of_sorted_perm l s hperm hsort]

theorem getBand_ndvi (img : EEImage) (p : Pixel) :
    getBand (ndvi img) "nd" p =
      match getBand img "NIR" p, getBand img "red" p with
      | some a, some b => if a + b = 0 then none else some ((a - b) / (a + b))
      | _, _ => none := rfl

theorem getBand_cloud_mask (img : EEImage) (raw canon : String) (p : Pixel)
    (h : (sel7.map (fun onb => (onb.2, onb.1))).lookup canon = some raw) :
    getBand (cloud_mask img) canon p =
      match cloudMaskRaster img p with
      | some mv =>
        if mv = 0 then none else (getBand img raw p).map (fun v => v / 10000)
      | none => none := by
  unfold cloud_mask
  rw [getBand_eeSet, getBand_eeSelect]
  simp only [h]
  rw [getBand_eeDivide, getBand_eeUpdateMask]
  cases cloudMaskRaster img p with
  | none => rfl
  | some mv =>
    by_cases hmv : mv = 0
    · simp [hmv]
    · simp [hmv]

/-! ### Concrete inputs used by witnesses and counterexamples -/

/-- A constant raster. -/
def constR (v : ℚ) : Raster := fun _ => some v

/-- A scene whose QA bitfield has the cloud bit (bit 5, value 32) set at
the origin and is fully clear elsewhere; raw NIR is 5000 everywhere. -/
def bugScene : EEImage :=
  { bands := [("B1", constR 1000), ("B2", constR 2000), ("B3", constR 2000),
              ("B4", constR 5000), ("B5", constR 3000), ("B7", constR 3000),
              ("pixel_qa", fun p => if p = (0, 0) then some 32 else some 0)],
    props := [("SENSING_TIME", "2000-06-15T16:00:00")] }

/-- A fully clear scene (QA 0 everywhere) with raw NIR 5000. -/
def clearScene : EEImage :=
  { bands := [("B4", constR 5000), ("pixel_qa", constR 0)],
    props := [("SENSING_TIME", "2001-07-01T16:00:00")] }

/-- A reflectance image with constant NIR 5 and red 2. -/
def ndviScene : EEImage :=
  { bands := [("NIR", constR 5), ("red", constR 2)], props := [] }

/-- A one-band scene carrying a year label, used for median witnesses. -/
def blueScene (y : String) (v : ℚ) : EEImage :=
  { bands := [("blue", constR v)], props := [("year", y)] }

/-- A two-scene year-2000 collection with blue values 1 and 3. -/
def medianColl : ImageCollection := [blueScene "2000" 1, blueScene "2000" 3]

/-- A NIR/red scene carrying a year label, used for max-NDVI witnesses. -/
def nrScene (y : String) (a b : ℚ) : EEImage :=
  { bands := [("NIR", constR a), ("red", constR b)], props := [("year", y)] }

/-- A two-scene year-2000 collection whose per-scene NDVI values are
(65−35)/(65+35) = 0.3 and (85−15)/(85+15) = 0.7. -/
def maxNdviColl : ImageCollection := [nrScene "2000" 65 35, nrScene "2000" 85 15]

/-- The all-masked default image. -/
def emptyImage : EEImage := ⟨[], []⟩

/-- The default export task used for out-of-range list access. -/
def defaultTask : ExportTask := ⟨emptyImage, "", "", 0, ""⟩

/-! ### Claim theorems -/

/-- C2: for every image with NIR and red bands and every pixel, `ndvi`
returns `(NIR − red) / (NIR + red)` at that pixel when `NIR + red` is
nonzero, and yields a missing (masked) value, not an exception, when
`NIR + red` is zero. -/
theorem ndvi_division_contract (img : EEImage) (p : Pixel) (a b : ℚ)
    (hN : getBand img "NIR" p = some a) (hr : getBand img "red" p = some b) :
    (a + b ≠ 0 → getBand (ndvi img) "nd" p = some ((a - b) / (a + b))) ∧
    (a + b = 0 → getBand (ndvi img) "nd" p = none) := by
  constructor
  · intro h
    rw [getBand_ndvi, hN, hr]
    simp [h]
  · intro h
    rw [getBand_ndvi, hN, hr]
    simp [h]

theorem ndvi_division_contract_witness :
    getBand (ndvi ndviScene) "nd" (0, 0) = some ((5 - 2) / (5 + 2)) :=
  (ndvi_division_contract ndviScene (0, 0) 5 2 rfl rfl).1 (by norm_num)

/-- C9: for every pixel with nonnegative NIR and red reflectances, the
vegetation index lies in [-1, 1] whenever NIR + red > 0, and is missing
when NIR + red = 0.  (Band values entering `ndvi` are reflectance
fractions, i.e. raw nonnegative fixed-point integers divided by 10000,
hence nonnegative.) -/
theorem ndvi_bounded_spec (img : EEImage) (p : Pixel) (a b : ℚ)
    (hN : getBand img "NIR" p = some a) (hr : getBand img "red" p = some b)
    (ha : 0 ≤ a) (hb : 0 ≤ b) :
    (0 < a + b → ∃ v, getBand (ndvi img) "nd" p = some v ∧ -1 ≤ v ∧ v ≤ 1) ∧
    (a + b = 0 → getBand (ndvi img) "nd" p = none) := by
  constructor
  · intro hpos
    refine ⟨(a - b) / (a + b), ?_, ?_, ?_⟩
    · rw [getBand_ndvi, hN, hr]
      simp [ne_of_gt hpos]
    · rw [le_div_iff₀ hpos]
      linarith
    · rw [div_le_one hpos]
      linarith
  · intro h
    rw [getBand_ndvi, hN, hr]
    simp [h]

theorem ndvi_bounded_spec_witness :
    ∃ v, getBand (ndvi ndviScene) "nd" (0, 0) = some v ∧ -1 ≤ v ∧ v ≤ 1 :=
  (ndvi_bounded_spec ndviScene (0, 0) 5 2 rfl rfl (by norm_num) (by norm_num)).1
    (by norm_num)

/-- C8: for a year with zero contributing scenes, both annual compositors
return a composite in which every band is missing at every pixel, and do
not fail. -/
theorem empty_year_composite_spec (coll : ImageCollection) (year : String)
    (hempty : filterMetadataEquals coll "year" year = []) (n : String) (p : Pixel) :
    getBand (annual_composite_median coll year) n p = none ∧
    getBand (annual_composite_maximum_ndvi coll year) n p = none := by
  unfold annual_composite_median annual_composite_maximum_ndvi eeMedian eeMax
  rw [hempty]
  exact ⟨rfl, rfl⟩

theorem empty_year_composite_spec_witness :
    getBand (annual_composite_median medianColl "1999") "blue" (0, 0) = none ∧
    getBand (annual_composite_maximum_ndvi medianColl "1999") "blue" (0, 0) = none :=
  empty_year_composite_spec medianColl "1999" rfl "blue" (0, 0)

theorem getBand_cloud_mask_of_mask_none (img : EEImage) (raw canon : String)
    (p : Pixel)
    (h : (sel7.map (fun onb => (onb.2, onb.1))).lookup canon = some raw)
    (hm : cloudMaskRaster img p = none) :
    getBand (cloud_mask img) canon p = none := by
  rw [getBand_cloud_mask img raw canon p h, hm]

theorem getBand_cloud_mask_of_mask_some (img : EEImage) (raw canon : String)
    (p : Pixel)
    (h : (sel7.map (fun onb => (onb.2, onb.1))).lookup canon = some raw)
    (mv : ℚ) (hm : cloudMaskRaster img p = some mv) :
    getBand (cloud_mask img) canon p =
      if mv = 0 then none else (getBand img raw p).map (fun v => v / 10000) := by
  rw [getBand_cloud_mask img raw canon p h, hm]

theorem cloud_mask_rescale_band (img : EEImage) (p : Pixel) (v : ℚ)
    (raw canon : String)
    (h : (sel7.map (fun onb => (onb.2, onb.1))).lookup canon = some raw)
    (hraw : getBand img raw p = some v)
    (hkept : getBand (cloud_mask img) canon p ≠ none) :
    getBand (cloud_mask img) canon p = some (v / 10000) := by
  cases hmask : cloudMaskRaster img p with
  | none => exact absurd (getBand_cloud_mask_of_mask_none img raw canon p h hmask) hkept
  | some mv =>
    rw [getBand_cloud_mask_of_mask_some img raw canon p h mv hmask] at hkept ⊢
    by_cases hmv : mv = 0
    · exact absurd (if_pos hmv) hkept
    · rw [if_neg hmv, hraw]
      rfl

/-- C5: for every scene and every reflectance band, the band value in
`cloud_mask`'s output equals the raw band value divided by 10000, exactly,
at every pixel that remains unmasked. -/
theorem cloud_mask_rescale_spec (img : EEImage) (p : Pixel) (v : ℚ)
    (raw canon : String)
    (hmem : (raw, canon) ∈ [(("B1" : String), ("blue" : String)), ("B2", "green"),
      ("B3", "red"), ("B4", "NIR"), ("B5", "SWIR1"), ("B7", "SWIR2")])
    (hraw : getBand img raw p = some v)
    (hkept : getBand (cloud_mask img) canon p ≠ none) :
    getBand (cloud_mask img) canon p = some (v / 10000) := by
  fin_cases hmem
  · exact cloud_mask_rescale_band img p v "B1" "blue" (by decide) hraw hkept
  · exact cloud_mask_rescale_band img p v "B2" "green" (by decide) hraw hkept
  · exact cloud_mask_rescale_band img p v "B3" "red" (by decide) hraw hkept
  · exact cloud_mask_rescale_band img p v "B4" "NIR" (by decide) hraw hkept
  · exact cloud_mask_rescale_band img p v "B5" "SWIR1" (by decide) hraw hkept
  · exact cloud_mask_rescale_band img p v "B7" "SWIR2" (by decide) hraw hkept

theorem cloud_mask_rescale_spec_witness :
    getBand (cloud_mask clearScene) "NIR" (0, 0) = some (5000 / 10000) :=
  cloud_mask_rescale_spec clearScene (0, 0) 5000 "B4" "NIR" (by decide) rfl
    (by decide)

/-- C1 (code bug evidence): `bugScene`'s QA bitfield has the cloud bit
(bit 5) set at the origin, yet `cloud_mask` keeps the origin pixel — its
NIR value survives as 5000/10000 — because the `anyNonZero` neighbourhood
reduction of the *clear* indicator marks a pixel clear as soon as any
pixel of its 3×3 window is clear, instead of masking every pixel whose
window touches contamination as the claim (and the code's own NOTE
comment) require. -/
theorem cloud_mask_keeps_cloudy_pixel :
    qBitAnd 32 clouds_bit_mask ≠ 0 ∧
    getBand (cloud_mask bugScene) "NIR" (0, 0) = some (5000 / 10000) := by
  constructor
  · decide
  · have hmask : cloudMaskRaster bugScene (0, 0) = some 1 := by decide
    rw [getBand_cloud_mask_of_mask_some bugScene "B4" "NIR" (0, 0) (by decide) 1 hmask,
      if_neg one_ne_zero]
    rfl

/-- C10: `cloud_mask` divides every band by 10000, the `pixel_qa` band
included, so its output retains a `pixel_qa` band that (on surviving
pixels with a nonzero bitfield) no longer equals the raw bitfield; the
collection assembler's band selection then drops it, so every scene of
the assembled collection carries exactly the six canonical reflectance
bands. -/
theorem cloud_mask_qa_band_spec (img : EEImage) (p : Pixel) (q : ℚ)
    (lt5 le7 : List RawScene)
    (hq : getBand img "pixel_qa" p = some q) (hq0 : q ≠ 0) :
    (cloud_mask img).bands.map Prod.fst =
      ["blue", "green", "red", "NIR", "SWIR1", "SWIR2", "pixel_qa"] ∧
    (getBand (cloud_mask img) "pixel_qa" p = none ∨
      getBand (cloud_mask img) "pixel_qa" p = some (q / 10000)) ∧
    getBand (cloud_mask img) "pixel_qa" p ≠ some q ∧
    ∀ s ∈ lt5_le7_collection lt5 le7,
      s.bands.map Prod.fst = ["blue", "green", "red", "NIR", "SWIR1", "SWIR2"] := by
  have hqa : getBand (cloud_mask img) "pixel_qa" p = none ∨
      getBand (cloud_mask img) "pixel_qa" p = some (q / 10000) := by
    cases hmask : cloudMaskRaster img p with
    | none =>
      exact Or.inl
        (getBand_cloud_mask_of_mask_none img "pixel_qa" "pixel_qa" p (by decide) hmask)
    | some mv =>
      rw [getBand_cloud_mask_of_mask_some img "pixel_qa" "pixel_qa" p (by decide) mv hmask]
      by_cases hmv : mv = 0
      · rw [if_pos hmv]; exact Or.inl rfl
      · rw [if_neg hmv, hq]; exact Or.inr rfl
  refine ⟨rfl, hqa, ?_, ?_⟩
  · intro hcontra
    rcases hqa with hnone | hdiv
    · rw [hcontra] at hnone; exact Option.noConfusion hnone
    · rw [hcontra] at hdiv
      have hdq : q = q / 10000 := by injection hdiv
      have hzero : q = 0 := by
        field_simp at hdq
      exact hq0 hzero
  · intro s hs
    rcases List.mem_append.mp hs with hmem | hmem
    all_goals
      unfold platformCollection at hmem
      rcases List.mem_map.mp hmem with ⟨t, -, rfl⟩
      rfl

theorem cloud_mask_qa_band_spec_witness :
    (cloud_mask bugScene).bands.map Prod.fst =
      ["blue", "green", "red", "NIR", "SWIR1", "SWIR2", "pixel_qa"] ∧
    (getBand (cloud_mask bugScene) "pixel_qa" (0, 0) = none ∨
      getBand (cloud_mask bugScene) "pixel_qa" (0, 0) = some (32 / 10000)) ∧
    getBand (cloud_mask bugScene) "pixel_qa" (0, 0) ≠ some 32 ∧
    ∀ s ∈ lt5_le7_collection [] [],
      s.bands.map Prod.fst = ["blue", "green", "red", "NIR", "SWIR1", "SWIR2"] :=
  cloud_mask_qa_band_spec bugScene (0, 0) 32 [] [] rfl (by norm_num)

/-- C3: for every year, band and pixel, the median composite selects
exactly the scenes whose year label equals the year, and returns the
median of the unmasked contributing values there — the middle-ranked
value for an odd count, the average of the two middle-ranked values for
an even count, missing for no contributions — and is tagged with the
year.  (`s` is any sorted rearrangement of the contributing values.) -/
theorem annual_composite_median_spec (coll : ImageCollection) (year n : String)
    (p : Pixel)
    (hn : n ∈ collectionBandNames (filterMetadataEquals coll "year" year))
    (s : List ℚ) (hperm : s.Perm (yearValues coll year n p))
    (hsort : s.Sorted (· ≤ ·)) :
    getProp (annual_composite_median coll year) "year" = some year ∧
    (s = [] → getBand (annual_composite_median coll year) n p = none) ∧
    (s.length % 2 = 1 →
      getBand (annual_composite_median coll year) n p = s[s.length / 2]?) ∧
    (∀ a b : ℚ, s.length % 2 = 0 → s[s.length / 2 - 1]? = some a →
      s[s.length / 2]? = some b →
      getBand (annual_composite_median coll year) n p = some ((a + b) / 2)) := by
  have hband : getBand (annual_composite_median coll year) n p =
      medianList (yearValues coll year n p) := by
    unfold annual_composite_median eeMedian
    rw [getBand_eeSet]
    exact getBand_collectionReduce medianList _ n p hn
  rw [medianList_of_sorted_perm (yearValues coll year n p) s hperm hsort] at hband
  refine ⟨rfl, ?_, ?_, ?_⟩
  · rintro rfl
    simpa using hband
  · intro hodd
    rw [hband, if_pos hodd]
  · intro a b heven ha hb
    rw [hband, if_neg (by omega), ha, hb]

theorem annual_composite_median_spec_witness :
    getBand (annual_composite_median medianColl "2000") "blue" (0, 0) =
      some ((1 + 3) / 2) :=
  (annual_composite_median_spec medianColl "2000" "blue" (0, 0) (by decide)
    [1, 3] (by decide) (by decide)).2.2.2 1 3 (by decide) (by decide) (by decide)

/-- C4: for every year and pixel, the maximum-NDVI composite is tagged
with the year and holds value `v` exactly when `v` is one of the
per-scene NDVI values of the scenes whose year label equals the year
(index computed per scene, masked contributions excluded) and bounds all
of them. -/
theorem annual_composite_maximum_ndvi_spec (coll : ImageCollection) (year : String)
    (p : Pixel) (v : ℚ)
    (hne : filterMetadataEquals coll "year" year ≠ []) :
    getProp (annual_composite_maximum_ndvi coll year) "year" = some year ∧
    (getBand (annual_composite_maximum_ndvi coll year) "nd" p = some v ↔
      v ∈ ndviValues coll year p ∧ ∀ w ∈ ndviValues coll year p, w ≤ v) := by
  have hn : "nd" ∈ collectionBandNames ((filterMetadataEquals coll "year" year).map ndvi) := by
    cases hc : filterMetadataEquals coll "year" year with
    | nil => exact absurd hc hne
    | cons hd tl =>
      simp [collectionBandNames, ndvi, eeSet, normalizedDifference]
  have hband : getBand (annual_composite_maximum_ndvi coll year) "nd" p =
      maxList (ndviValues coll year p) := by
    unfold annual_composite_maximum_ndvi eeMax
    rw [getBand_eeSet, getBand_collectionReduce maxList _ "nd" p hn,
      List.filterMap_map]
    rfl
  refine ⟨rfl, ?_⟩
  rw [hband]
  exact maxList_eq_some_iff _ v

theorem nd_of_nrScene (y : String) (a b : ℚ) (hne : a + b ≠ 0) :
    getBand (ndvi (nrScene y a b)) "nd" (0, 0) = some ((a - b) / (a + b)) := by
  rw [getBand_ndvi]
  show (if a + b = 0 then none else some ((a - b) / (a + b))) = _
  rw [if_neg hne]

theorem annual_composite_maximum_ndvi_spec_witness :
    getBand (annual_composite_maximum_ndvi maxNdviColl "2000") "nd" (0, 0) =
      some ((85 - 15) / (85 + 15)) := by
  have hfilter : filterMetadataEquals maxNdviColl "year" "2000" = maxNdviColl := rfl
  have hvals : ndviValues maxNdviColl "2000" (0, 0) =
      [(65 - 35) / (65 + 35), (85 - 15) / (85 + 15)] := by
    unfold ndviValues
    rw [hfilter]
    unfold maxNdviColl
    rw [List.filterMap_cons, List.filterMap_cons, List.filterMap_nil,
      nd_of_nrScene "2000" 65 35 (by norm_num),
      nd_of_nrScene "2000" 85 15 (by norm_num)]
  refine ((annual_composite_maximum_ndvi_spec maxNdviColl "2000" (0, 0)
      ((85 - 15) / (85 + 15)) (by rw [hfilter]; simp [maxNdviColl])).2).mpr ?_
  rw [hvals]
  refine ⟨by simp, ?_⟩
  intro w hw
  rcases List.mem_cons.mp hw with rfl | hw
  · norm_num
  · rcases List.mem_cons.mp hw with rfl | hw
    · norm_num
    · simp at hw

theorem platformCollection_eq (archive : List RawScene) :
    platformCollection archive =
      (archive.filter survivesSpec).map (fun s => eeSelect (cloud_mask s.img) sel6) := by
  unfold platformCollection
  rw [List.map_map, List.filter_filter, List.filter_filter, List.filter_filter]
  apply congrArg
  apply List.filter_congr
  intro s _
  rcases s with ⟨img, y, d, cc, ir⟩
  cases ir
  · simp [survivesSpec]
  · by_cases hcc : cc < 80
    · simp only [survivesSpec, dateLE, dateLT, hcc]
      rw [Bool.eq_iff_iff]
      simp only [Bool.and_eq_true, Bool.or_eq_true, decide_eq_true_eq,
        and_true, true_and]
      omega
    · simp [survivesSpec, hcc]

/-- C7: a raw scene survives into a platform's assembled collection iff
it intersects the region, its date lies in the absolute range
1995-01-01..2015-12-31, its day-of-year lies in 121..273 and its cloud
cover is strictly below 80; every survivor is preprocessed
(`cloud_mask`, then six-band selection), and the two per-platform
collections are concatenated with no deduplication. -/
theorem lt5_le7_collection_spec (lt5 le7 : List RawScene) :
    lt5_le7_collection lt5 le7 =
      (lt5.filter survivesSpec).map (fun s => eeSelect (cloud_mask s.img) sel6) ++
      (le7.filter survivesSpec).map (fun s => eeSelect (cloud_mask s.img) sel6) := by
  unfold lt5_le7_collection
  rw [platformCollection_eq, platformCollection_eq]

theorem getD_map_of_lt {α β : Type} (l : List α) (g : α → β) (i : ℕ)
    (hi : i < l.length) (d : α) (e : β) :
    (l.map g).getD i e = g (l.getD i d) := by
  rw [List.getD_eq_getElem?_getD, List.getD_eq_getElem?_getD, List.getElem?_map,
    List.getElem?_eq_getElem hi]
  rfl

theorem combined_dates_getD (i : ℕ) (hi : i < 21) :
    combined_dates.getD i "" = toString (1995 + i) := by
  interval_cases i <;> rfl

theorem waterOf_of_water (gsw : Raster) (p : Pixel) (w : ℚ) (hw : gsw p = some w)
    (hw0 : w ≠ 0) : waterOf gsw p = some 0 := by
  unfold waterOf
  rw [hw]
  exact if_neg hw0

theorem getBand_eeUpdateMask_of_mask_zero (img : EEImage) (m : Raster) (n : String)
    (p : Pixel) (h : m p = some 0) :
    getBand (eeUpdateMask img m) n p = none := by
  rw [getBand_eeUpdateMask, h]
  rfl

theorem getBand_eeUpdateMask_of_inner_none (img : EEImage) (m : Raster) (n : String)
    (p : Pixel) (h : getBand img n p = none) :
    getBand (eeUpdateMask img m) n p = none := by
  rw [getBand_eeUpdateMask]
  cases hm : m p with
  | none => rfl
  | some mv => by_cases hmv : mv = 0 <;> simp [hmv, h]

/-- C6: for each of the 21 loop indices i (years 1995+i for i < 21), the
export driver submits exactly one job; its description is
`LT5-LE7_SR_Maximum_NDVI_<year>`, its scale is 30, and its image is that
year's maximum-NDVI composite (clipped to the region) with both static
masks applied — in particular each pixel is missing wherever the
global-surface-water layer is nonzero (permanent water) or the
non-cultivated mask equals 0. -/
theorem exportDriver_spec (coll : ImageCollection) (gsw cdl : Raster)
    (inRegion : Pixel → Bool) (i : ℕ) (hi : i < 21) :
    (exportDriver coll gsw cdl inRegion).length = 21 ∧
    ((exportDriver coll gsw cdl inRegion).getD i defaultTask).description =
      "LT5-LE7_SR_Maximum_NDVI_" ++ toString (1995 + i) ∧
    ((exportDriver coll gsw cdl inRegion).getD i defaultTask).scale = 30 ∧
    ((exportDriver coll gsw cdl inRegion).getD i defaultTask).image =
      eeUpdateMask (eeUpdateMask (eeClip inRegion
        (annual_composite_maximum_ndvi coll (toString (1995 + i))))
        (waterOf gsw)) cdl ∧
    (∀ (p : Pixel) (n : String) (w : ℚ), gsw p = some w → w ≠ 0 →
      getBand ((exportDriver coll gsw cdl inRegion).getD i defaultTask).image n p
        = none) ∧
    (∀ (p : Pixel) (n : String), cdl p = some 0 →
      getBand ((exportDriver coll gsw cdl inRegion).getD i defaultTask).image n p
        = none) := by
  have hlen21 : i < combined_dates.length := by
    simpa [combined_dates] using hi
  have hcomp : ((combined_dates.map (fun year => eeClip inRegion
      (annual_composite_maximum_ndvi coll year))).getD i (⟨[], []⟩ : EEImage)) =
      eeClip inRegion (annual_composite_maximum_ndvi coll (toString (1995 + i))) := by
    rw [getD_map_of_lt combined_dates _ i hlen21 ""]
    rw [combined_dates_getD i hi]
  have htask : (exportDriver coll gsw cdl inRegion).getD i defaultTask =
      { image := eeUpdateMask (eeUpdateMask (eeClip inRegion
          (annual_composite_maximum_ndvi coll (toString (1995 + i))))
          (waterOf gsw)) cdl,
        description := "LT5-LE7_SR_Maximum_NDVI_" ++ toString (1995 + i),
        folder := "EarthEngine", scale := 30, crs := "EPSG:32617" } := by
    unfold exportDriver
    rw [List.getD_eq_getElem?_getD, List.getElem?_map,
      List.getElem?_range (by simpa [combined_dates] using hi : i <
        (combined_dates.map (fun year => eeClip inRegion
          (annual_composite_maximum_ndvi coll year))).length)]
    simp only [Option.map_some', Option.getD_some]
    rw [hcomp]
  refine ⟨?_, ?_, ?_, ?_, ?_, ?_⟩
  · unfold exportDriver
    simp [combined_dates]
  · rw [htask]
  · rw [htask]
  · rw [htask]
  · intro p n w hw hw0
    rw [htask]
    exact getBand_eeUpdateMask_of_inner_none _ cdl n p
      (getBand_eeUpdateMask_of_mask_zero _ (waterOf gsw) n p
        (waterOf_of_water gsw p w hw hw0))
  · intro p n hc
    rw [htask]
    exact getBand_eeUpdateMask_of_mask_zero _ cdl n p hc

theorem exportDriver_spec_witness :
    (exportDriver [] (fun _ => none) (constR 1) (fun _ => true)).length = 21 ∧
    ((exportDriver [] (fun _ => none) (constR 1) (fun _ => true)).getD 0
      defaultTask).description = "LT5-LE7_SR_Maximum_NDVI_" ++ toString (1995 + 0) ∧
    ((exportDriver [] (fun _ => none) (constR 1) (fun _ => true)).getD 0
      defaultTask).scale = 30 ∧
    ((exportDriver [] (fun _ => none) (constR 1) (fun _ => true)).getD 0
      defaultTask).image =
      eeUpdateMask (eeUpdateMask (eeClip (fun _ => true)
        (annual_composite_maximum_ndvi [] (toString (1995 + 0))))
        (waterOf (fun _ => none))) (constR 1) ∧
    (∀ (p : Pixel) (n : String) (w : ℚ), (fun _ => none : Raster) p = some w →
      w ≠ 0 →
      getBand ((exportDriver [] (fun _ => none) (constR 1)
        (fun _ => true)).getD 0 defaultTask).image n p = none) ∧
    (∀ (p : Pixel) (n : String), constR 1 p = some 0 →
      getBand ((exportDriver [] (fun _ => none) (constR 1)
        (fun _ => true)).getD 0 defaultTask).image n p = none) :=
  exportDriver_spec [] (fun _ => none) (constR 1) (fun _ => true) 0 (by norm_num)
